import Mathlib

/-!
Verification of the Plot_Generator plotting core against its specification.

The development shallowly embeds the Python sources:
  * `src/core/plot_registry.py`  — the `PlotRegistry` singleton (discovery,
    explicit registration, lookups, instantiation);
  * `src/core/base_plotter.py`   — `PlotConfig` and the `BasePlotter.plot`
    template pipeline;
  * `src/config/palettes.py`     — the stored palettes and `get_palette`;
  * `src/plotters/categorical/bar.py`      — the stacked-bar baseline fold;
  * `src/plotters/statistical/heatmap.py`  — correlation-mode data preparation;
  * `src/plotters/statistical/histogram.py`— grouped-overlay preparation.

Python dictionaries are modelled as insertion-ordered association lists
(update-in-place on an existing key, append on a new key), exceptions as
`Except`/`Option` results, and floating-point numbers as exact rationals.
-/

namespace PlotGen

/-- Insertion-ordered dictionary update, the semantics of `d[k] = v` on a
Python `dict`: an existing key keeps its position and gets the new value, a
new key is appended at the end. -/
def dinsert {α : Type} (l : List (String × α)) (k : String) (v : α) :
    List (String × α) :=
  match l with
  | [] => [(k, v)]
  | (k', v') :: t => if k' = k then (k', v) :: t else (k', v') :: dinsert t k v

/-- Python's `str.lower()` on the ASCII class names the registry
lowercases. -/
def strLower (s : String) : String := String.mk (s.data.map Char.toLower)

/-- Dictionary lookup, the semantics of `d.get(k)` on a Python `dict`. -/
def dlookup {α : Type} (l : List (String × α)) (k : String) : Option α :=
  match l with
  | [] => none
  | (k', v') :: t => if k' = k then some v' else dlookup t k

/-- A Python class object as seen by the registry: its `__name__`, the
class-level plotter metadata from `base_plotter.py`, a `uid` standing for
object identity, and the two facts `inspect`-based discovery tests
(`issubclass(obj, BasePlotter)` and `obj is BasePlotter`). -/
structure PClass where
  cname : String
  name : String := "Base Plotter"
  category : String := "general"
  description : String := "Base plotter class"
  required_columns : Nat := 1
  supports_multiple_series : Bool := false
  required_params : List (String × String) := [("x_column", "str"), ("y_column", "str")]
  optional_params : List (String × String) := [("color", "None"), ("size", "None"), ("hue", "None")]
  uid : Nat := 0
  isPlotterSub : Bool := true
  isBase : Bool := false
  deriving DecidableEq, Repr

/-- Outcome of `importlib.import_module` on one chart module: the module
loads and exposes its classes (in `inspect.getmembers` alphabetical order),
or raises an `ImportError` (the only exception `discover_plots` catches), or
raises any other exception — e.g. the `NameError` raised while
`heatmap.py`'s class body evaluates the annotation `List[str]` with `List`
not imported. -/
inductive LoadResult where
  | ok (classes : List PClass)
  | importError (msg : String)
  | otherError (msg : String)
  deriving DecidableEq, Repr

/-- One `*.py` module file inside a category directory. -/
structure PModule where
  stem : String
  result : LoadResult
  deriving DecidableEq, Repr

/-- One category subdirectory of `src/plotters`. -/
structure CategoryDir where
  dname : String
  modules : List PModule
  deriving DecidableEq, Repr

/-- The registry's class-level state: `_plots` (id → class) and
`_categories` (category → list of ids), plus the lines printed by the
`except ImportError` handler. -/
structure RegState where
  plots : List (String × PClass) := []
  categories : List (String × List String) := []
  log : List String := []
  deriving DecidableEq, Repr

/-- The catalog part of the state (what the spec calls the catalog): the
id → class map and the category index, without the log. -/
def catalog (s : RegState) : List (String × PClass) × List (String × List String) :=
  (s.plots, s.categories)

/-- Registration of one member found in a loaded module
(`plot_registry.py` lines 48-55): plotter subclasses other than
`BasePlotter` itself are bound under `"<category>.<lowercased __name__>"`
— an existing binding is overwritten with no collision flag — and the id is
appended to the category's list. -/
def discoverClass (s : RegState) (category : String) (c : PClass) : RegState :=
  if c.isPlotterSub && !c.isBase then
    let plot_id := category ++ "." ++ strLower c.cname
    { s with
      plots := dinsert s.plots plot_id c,
      categories :=
        dinsert s.categories category
          (((dlookup s.categories category).getD []) ++ [plot_id]) }
  else s

/-- Processing of one module file inside `discover_plots`' inner loop: a
loaded module has each of its members inspected; an `ImportError` is caught
and printed; any other exception propagates (second component `some msg`). -/
def discoverModule (s : RegState) (category : String) (m : PModule) :
    RegState × Option String :=
  match m.result with
  | .ok cs => (cs.foldl (fun st c => discoverClass st category c) s, none)
  | .importError msg =>
      ({ s with
         log := s.log ++ ["Failed to import plotters." ++ category ++ "." ++ m.stem ++ ": " ++ msg] },
       none)
  | .otherError msg => (s, some msg)

/-- The module loop of `discover_plots` for one category; an uncaught
exception aborts the remaining iterations. -/
def discoverModules (s : RegState) (category : String) :
    List PModule → RegState × Option String
  | [] => (s, none)
  | m :: rest =>
    match discoverModule s category m with
    | (s', none) => discoverModules s' category rest
    | (s', some e) => (s', some e)

/-- One iteration of `discover_plots`' outer loop: the category's id list is
reset to `[]` (`self._categories[category] = []`) and the category's module
files are processed. -/
def discoverCategory (s : RegState) (d : CategoryDir) : RegState × Option String :=
  discoverModules { s with categories := dinsert s.categories d.dname [] }
    d.dname d.modules

/-- `PlotRegistry.discover_plots` over the category directories of
`src/plotters`; an uncaught exception from a module import propagates out
of the whole method, aborting the remaining categories. -/
def discover_plots (s : RegState) : List CategoryDir → RegState × Option String
  | [] => (s, none)
  | d :: rest =>
    match discoverCategory s d with
    | (s', none) => discover_plots s' rest
    | (s', some e) => (s', some e)

/-- `PlotRegistry.register(category, name)` applied to a plotter class
(`plot_registry.py` lines 60-83): the id is `category` dot the given name,
or the lowercased class name when no name is given; the id → class binding
is overwritten silently, the category list is created when absent, and the
id is appended to it unconditionally; the class's `category` attribute is
set to the category. -/
def register (s : RegState) (category : String) (nm : Option String) (c : PClass) :
    RegState :=
  let plot_name := nm.getD (strLower c.cname)
  let plot_id := category ++ "." ++ plot_name
  let c' := { c with category := category }
  let cats0 :=
    if (dlookup s.categories category).isNone then
      dinsert s.categories category []
    else s.categories
  { s with
    plots := dinsert s.plots plot_id c',
    categories :=
      dinsert cats0 category (((dlookup cats0 category).getD []) ++ [plot_id]) }

/-- `PlotRegistry.get_plot`: the class bound to an id, `None` when absent. -/
def get_plot (s : RegState) (plot_id : String) : Option PClass :=
  dlookup s.plots plot_id

/-- `PlotRegistry.get_categories`: the category names in insertion order. -/
def get_categories (s : RegState) : List String :=
  s.categories.map Prod.fst

/-- `PlotRegistry.get_plots_in_category`: the ids of a category, the empty
list for an unknown category. -/
def get_plots_in_category (s : RegState) (category : String) : List String :=
  (dlookup s.categories category).getD []

/-- A freshly constructed plotter instance `plot_class(data, config)`; the
dataset and configuration types stay abstract here since `create_plot`
merely forwards them. -/
structure PlotInstance (δ γ : Type) where
  cls : PClass
  data : δ
  config : γ
  deriving DecidableEq, Repr

/-- `PlotRegistry.create_plot`: instantiates the class bound to the id with
the given data and config; `None` for an unknown id (a Python class object
is always truthy, so the `if plot_class:` test succeeds exactly on a found
binding). Being a total function, it raises nothing. -/
def create_plot (s : RegState) (plot_id : String) {δ γ : Type} (data : δ)
    (config : γ) : Option (PlotInstance δ γ) :=
  (get_plot s plot_id).map (fun c => ⟨c, data, config⟩)

/-- The dictionary `PlotRegistry.get_plot_info` builds for a known id. -/
structure PlotInfo where
  id : String
  name : String
  category : String
  description : String
  required_columns : Nat
  supports_multiple_series : Bool
  required_params : List (String × String)
  optional_params : List (String × String)
  deriving DecidableEq, Repr

/-- `PlotRegistry.get_plot_info`: the descriptor of the class bound to the
id; `none` models the empty dictionary returned for an unknown id. -/
def get_plot_info (s : RegState) (plot_id : String) : Option PlotInfo :=
  (get_plot s plot_id).map (fun c =>
    { id := plot_id
      name := c.name
      category := c.category
      description := c.description
      required_columns := c.required_columns
      supports_multiple_series := c.supports_multiple_series
      required_params := c.required_params
      optional_params := c.optional_params })

/-- The registry object with its `_initialized` one-time flag. -/
structure Registry where
  initialized : Bool := false
  st : RegState := {}
  deriving DecidableEq, Repr

/-- `PlotRegistry.__init__` through the singleton's `_initialized` guard:
discovery runs only when the flag is still unset. -/
def initRegistry (dirs : List CategoryDir) (r : Registry) : Registry × Option String :=
  if r.initialized then (r, none)
  else
    let (s', e) := discover_plots r.st dirs
    ({ initialized := true, st := s' }, e)

/-! The concrete repository content: the classes defined by the chart
modules under `src/plotters` and the outcome of importing each module.
Directory iteration (`Path.iterdir`) and file globbing (`Path.glob`) are
taken in alphabetical order, the order the filesystem reports here; member
lists follow `inspect.getmembers`' alphabetical order and include every
class the module's namespace holds: the plotter class itself plus the
imported `BasePlotter` and `PlotConfig` (the former is excluded by
`obj != BasePlotter`, the latter by `issubclass`). -/

/-- The imported `BasePlotter` name present in every chart module. -/
def basePlotterClass : PClass :=
  { cname := "BasePlotter", uid := 1, isBase := true }

/-- The imported `PlotConfig` name present in every chart module; not a
`BasePlotter` subclass. -/
def plotConfigClass : PClass :=
  { cname := "PlotConfig", uid := 2, isPlotterSub := false }

/-- `BarPlotter` from `src/plotters/categorical/bar.py`. -/
def barPlotterClass : PClass :=
  { cname := "BarPlotter", name := "Bar Chart", category := "categorical"
    description := "Compare values across categories"
    required_columns := 2, supports_multiple_series := true
    required_params := [("x_column", "str"), ("y_columns", "list")]
    optional_params := [("orientation", "str"), ("grouped", "bool"),
      ("stacked", "bool"), ("bar_width", "float"), ("colors", "list"),
      ("error_bars", "bool")]
    uid := 10 }

/-- `BoxPlotter` from `src/plotters/statistical/boxplot.py`. -/
def boxPlotterClass : PClass :=
  { cname := "BoxPlotter", name := "Box Plot", category := "statistical"
    description := "Display statistical summary with quartiles and outliers"
    required_columns := 1, supports_multiple_series := true
    uid := 11 }

/-- `HistogramPlotter` from `src/plotters/statistical/histogram.py`. -/
def histogramPlotterClass : PClass :=
  { cname := "HistogramPlotter", name := "Histogram", category := "statistical"
    description := "Visualize the distribution of a continuous variable"
    required_columns := 1, supports_multiple_series := true
    required_params := [("value_column", "str")]
    optional_params := [("group_column", "str"), ("bins", "int"),
      ("density", "bool"), ("cumulative", "bool"), ("kde", "bool"), ("stat", "str")]
    uid := 12 }

/-- `ScatterPlotter` from `src/plotters/statistical/scatter.py`. -/
def scatterPlotterClass : PClass :=
  { cname := "ScatterPlotter", name := "Scatter Plot", category := "statistical"
    description := "Visualize relationships between two continuous variables"
    required_columns := 2, supports_multiple_series := true
    uid := 13 }

/-- `LinePlotter` from `src/plotters/temporal/line.py`. -/
def linePlotterClass : PClass :=
  { cname := "LinePlotter", name := "Line Plot", category := "temporal"
    description := "Display trends over time or continuous data"
    required_columns := 1, supports_multiple_series := true
    uid := 14 }

/-- The category directories of `src/plotters` as `discover_plots` walks
them. Importing `statistical/heatmap.py` raises a `NameError`, not an
`ImportError`: its class body evaluates the `set_columns` annotation
`Optional[List[str]]` while the module imports only `Tuple` and `Optional`
from `typing`, so the name `List` is undefined at class-creation time. -/
def repoDirs : List CategoryDir :=
  [ { dname := "categorical"
      modules := [
        { stem := "bar"
          result := .ok [barPlotterClass, basePlotterClass, plotConfigClass] }] },
    { dname := "statistical"
      modules := [
        { stem := "boxplot"
          result := .ok [basePlotterClass, boxPlotterClass, plotConfigClass] },
        { stem := "heatmap"
          result := .otherError "NameError: name List is not defined" },
        { stem := "histogram"
          result := .ok [basePlotterClass, histogramPlotterClass, plotConfigClass] },
        { stem := "scatter"
          result := .ok [basePlotterClass, plotConfigClass, scatterPlotterClass] }] },
    { dname := "temporal"
      modules := [
        { stem := "line"
          result := .ok [basePlotterClass, linePlotterClass, plotConfigClass] }] } ]

/-! The plotter contract of `src/core/base_plotter.py`: the `PlotConfig`
record and the `plot()` template pipeline. -/

/-- The `PlotConfig` dataclass, with its source defaults; `annotations`
holds the free-form annotation specifications, abstracted to opaque-to-us
text payloads since `add_annotations` only forwards them to the axes. -/
structure PlotConfig where
  title : String := ""
  xlabel : String := ""
  ylabel : String := ""
  figsize : ℚ × ℚ := (35/10, 2625/1000)
  dpi : Nat := 300
  style : String := "default"
  color_palette : List String := []
  grid : Bool := true
  legend : Bool := true
  legend_loc : String := "best"
  font_size : Nat := 10
  line_width : ℚ := 15/10
  marker_size : ℚ := 6
  alpha : ℚ := 1
  annotations : List String := []
  deriving DecidableEq, Repr

/-- The mutable state of a matplotlib axes, restricted to what the shared
pipeline touches; `legend_handles` records whether `create_plot` attached
labelled artists (`get_legend_handles_labels`). -/
structure Axes where
  title : Option (String × Nat) := none
  xlabel : Option (String × Nat) := none
  ylabel : Option (String × Nat) := none
  grid_on : Bool := false
  legend_drawn : Option (String × Nat) := none
  legend_handles : List String := []
  drawn_anns : List String := []
  deriving DecidableEq, Repr

/-- The figure state the shared pipeline touches. -/
structure Figure where
  fid : Nat := 0
  tight_layout : Bool := false
  deriving DecidableEq, Repr

/-- `BasePlotter.apply_styling`: title/axis labels when configured (with
their font sizes), grid when enabled, legend when enabled and some artist
carries a label, then `tight_layout` on the figure. -/
def apply_styling (cfg : PlotConfig) (fig : Figure) (ax : Axes) : Figure × Axes :=
  let ax := if cfg.title ≠ "" then
      { ax with title := some (cfg.title, cfg.font_size + 1) } else ax
  let ax := if cfg.xlabel ≠ "" then
      { ax with xlabel := some (cfg.xlabel, cfg.font_size) } else ax
  let ax := if cfg.ylabel ≠ "" then
      { ax with ylabel := some (cfg.ylabel, cfg.font_size) } else ax
  let ax := if cfg.grid then { ax with grid_on := true } else ax
  let ax := if cfg.legend ∧ ax.legend_handles ≠ [] then
      { ax with legend_drawn := some (cfg.legend_loc, cfg.font_size - 1) } else ax
  ({ fig with tight_layout := true }, ax)

/-- `BasePlotter.add_annotations`: each configured free-form annotation is
drawn onto the axes; an empty configuration is a no-op. -/
def add_anns (cfg : PlotConfig) (ax : Axes) : Axes :=
  if cfg.annotations = [] then ax
  else { ax with drawn_anns := ax.drawn_anns ++ cfg.annotations }

/-- One phase of the fixed `plot()` pipeline, recorded in execution order. -/
inductive PhaseStep where
  | createPhase
  | stylePhase
  | annotatePhase
  deriving DecidableEq, Repr

/-- A plotter instance at `plot()` time, abstracted over the chart family:
the class-level `name`, what its `validate_data()` returns, what its
`create_plot()` would produce, and the shared configuration. -/
structure PlotterRun where
  name : String
  validate_data : Bool
  create_result : Figure × Axes
  config : PlotConfig
  deriving DecidableEq, Repr

/-- `BasePlotter.plot`, the template method (`base_plotter.py` lines
118-137): validation failure raises `ValueError` before anything is drawn;
otherwise `create_plot`, `apply_styling` and `add_annotations` run in that
fixed order on the one figure/axes pair `create_plot` produced, which is
then returned. The second component records which phases executed. -/
def BasePlotter_plot (p : PlotterRun) :
    Except String (Figure × Axes) × List PhaseStep :=
  if ¬ p.validate_data then
    (.error ("Invalid data for " ++ p.name), [])
  else
    let (fig, ax) := p.create_result
    let (fig', ax') := apply_styling p.config fig ax
    let ax'' := add_anns p.config ax'
    (.ok (fig', ax''), [.createPhase, .stylePhase, .annotatePhase])

/-! The palette module `src/config/palettes.py`: the stored named palettes
and `get_palette`, including the gradient resampling it delegates to
`matplotlib.colors.LinearSegmentedColormap.from_list` (a 256-entry lookup
table linearly interpolated between the anchor colors) and
`numpy.linspace`. Colors are hex strings; channel arithmetic is exact
rational arithmetic in place of the library's floating point. -/

def COLORBLIND_SAFE : List (String × List String) :=
  [("default", ["#0173B2", "#DE8F05", "#029E73", "#CC78BC", "#ECE133", "#56B4E9", "#F0E442"]),
   ("tol", ["#332288", "#117733", "#44AA99", "#88CCEE", "#DDCC77", "#CC6677", "#AA4499", "#882255"]),
   ("okabe_ito", ["#E69F00", "#56B4E9", "#009E73", "#F0E442", "#0072B2", "#D55E00", "#CC79A7"])]

def JOURNAL_PALETTES : List (String × List String) :=
  [("nature", ["#E64B35", "#4DBBD5", "#00A087", "#3C5488", "#F39B7F", "#8491B4", "#91D1C2", "#DC0000"]),
   ("science", ["#1F77B4", "#FF7F0E", "#2CA02C", "#D62728", "#9467BD", "#8C564B", "#E377C2", "#7F7F7F"]),
   ("ieee", ["#000000", "#0000FF", "#FF0000", "#00FF00", "#FF00FF", "#00FFFF", "#FFFF00", "#808080"])]

def CATEGORICAL : List (String × List String) :=
  [("set1", ["#E41A1C", "#377EB8", "#4DAF4A", "#984EA3", "#FF7F00", "#FFFF33", "#A65628", "#F781BF"]),
   ("set2", ["#66C2A5", "#FC8D62", "#8DA0CB", "#E78AC3", "#A6D854", "#FFD92F", "#E5C494", "#B3B3B3"]),
   ("set3", ["#8DD3C7", "#FFFFB3", "#BEBADA", "#FB8072", "#80B1D3", "#FDB462", "#B3DE69", "#FCCDE5"])]

def SEQUENTIAL : List (String × List String) :=
  [("blues", ["#f7fbff", "#deebf7", "#c6dbef", "#9ecae1", "#6baed6", "#4292c6", "#2171b5", "#08519c"]),
   ("greens", ["#f7fcf5", "#e5f5e0", "#c7e9c0", "#a1d99b", "#74c476", "#41ab5d", "#238b45", "#006d2c"]),
   ("reds", ["#fff5f0", "#fee0d2", "#fcbba1", "#fc9272", "#fb6a4a", "#ef3b2c", "#cb181d", "#a50f15"])]

def DIVERGING : List (String × List String) :=
  [("rdbu", ["#67001f", "#b2182b", "#d6604d", "#f4a582", "#fddbc7", "#d1e5f0", "#92c5de", "#4393c3", "#2166ac", "#053061"]),
   ("rdylgn", ["#a50026", "#d73027", "#f46d43", "#fdae61", "#fee08b", "#d9ef8b", "#a6d96a", "#66bd63", "#1a9850", "#006837"])]

def HEATMAP_PALETTES : List (String × List String) :=
  [("diverging_rb", ["#053061", "#2166ac", "#4393c3", "#92c5de", "#d1e5f0", "#f7f7f7", "#fddbc7", "#f4a582", "#d6604d", "#b2182b", "#67001f"]),
   ("diverging_bg", ["#762a83", "#9970ab", "#c2a5cf", "#e7d4e8", "#f7f7f7", "#d9f0d3", "#a6dba0", "#5aae61", "#1b7837"]),
   ("sequential_heat", ["#ffffcc", "#ffeda0", "#fed976", "#feb24c", "#fd8d3c", "#fc4e2a", "#e31a1c", "#bd0026", "#800026"]),
   ("sequential_cool", ["#f7fcf0", "#e0f3db", "#ccebc5", "#a8ddb5", "#7bccc4", "#4eb3d3", "#2b8cbe", "#0868ac", "#084081"]),
   ("viridis", ["#440154", "#482878", "#3e4989", "#31688e", "#26828e", "#1f9e89", "#35b779", "#6ece58", "#b5de2b", "#fde725"]),
   ("plasma", ["#0d0887", "#46039f", "#7201a8", "#9c179e", "#bd3786", "#d8576b", "#ed7953", "#fb9f3a", "#fdca26", "#f0f921"]),
   ("temperature", ["#313695", "#4575b4", "#74add1", "#abd9e9", "#e0f3f8", "#fee090", "#fdae61", "#f46d43", "#d73027", "#a50026"]),
   ("earth", ["#1a3620", "#2d5016", "#4a7c1e", "#73af48", "#a2d489", "#c8e4b5", "#e7f5de", "#faf0d4", "#e8c58b", "#d19c4c", "#a57328"])]

/-- The `{**COLORBLIND_SAFE, **JOURNAL_PALETTES, ...}` merge inside
`get_palette`; the six dictionaries have pairwise distinct keys, so
first-match lookup over the concatenation equals the merged dictionary. -/
def all_palettes : List (String × List String) :=
  COLORBLIND_SAFE ++ JOURNAL_PALETTES ++ CATEGORICAL ++ SEQUENTIAL ++
    DIVERGING ++ HEATMAP_PALETTES

/-- Value of one hexadecimal digit. -/
def hexDigitVal (c : Char) : Nat :=
  if '0' ≤ c ∧ c ≤ '9' then c.toNat - '0'.toNat
  else if 'a' ≤ c ∧ c ≤ 'f' then c.toNat - 'a'.toNat + 10
  else if 'A' ≤ c ∧ c ≤ 'F' then c.toNat - 'A'.toNat + 10
  else 0

/-- `matplotlib.colors.to_rgb` on a `#RRGGBB` string, as the exact byte
triple: the library divides each byte by 255, and the final `to_hex`
multiplies by 255 again, so the pipeline is carried out on the integer
numerators over the common denominator 255 and stays exact. -/
def hexToRgb (s : String) : Nat × Nat × Nat :=
  match s.toList with
  | ['#', r1, r2, g1, g2, b1, b2] =>
      (hexDigitVal r1 * 16 + hexDigitVal r2,
       hexDigitVal g1 * 16 + hexDigitVal g2,
       hexDigitVal b1 * 16 + hexDigitVal b2)
  | _ => (0, 0, 0)

/-- Lowercase hexadecimal digit. -/
def hexDigitChar (n : Nat) : Char :=
  if n < 10 then Char.ofNat ('0'.toNat + n)
  else Char.ofNat ('a'.toNat + (n - 10))

/-- `matplotlib.colors.to_hex` on a byte triple: lowercase `#rrggbb`. -/
def rgbToHex (c : Nat × Nat × Nat) : String :=
  let byte := fun (n : Nat) =>
    String.mk [hexDigitChar (n / 16 % 16), hexDigitChar (n % 16)]
  "#" ++ byte c.1 ++ byte c.2.1 ++ byte c.2.2

/-- Rounding to nearest of the exact fraction `a/b` (`b > 0`), half
rounded up; `numpy.round`'s half-to-even differs only on exact halves,
which the pipeline below never produces on its anchor data. -/
def roundDiv (a b : ℤ) : ℤ := Int.fdiv (2 * a + b) (2 * b)

/-- Index into the colormap's 256-entry lookup table for sample `i` of
`np.linspace(0, 1, n)`, as `matplotlib.colors.Colormap.__call__` computes
it: `⌊t·256⌋` for `t = i/(n-1)`, with `t = 1` mapped back to the last
entry (`n ≤ 1` gives the single sample `t = 0`). -/
def sampleLutIndex (n i : Nat) : Nat :=
  if n ≤ 1 then 0
  else if n - 1 ≤ i then 255
  else 256 * i / (n - 1)

/-- Which segment of the `m` evenly spaced anchors lookup-table entry `k`
falls in, and the interpolation remainder within it: entry `k` sits at
position `k/255`, i.e. at `u = k·(m-1)/255` in anchor units, giving
segment `j = min ⌊u⌋ (m-2)` and fraction `(k·(m-1) - 255·j)/255`, whose
numerator is returned. -/
def lutSegment (m k : Nat) : Nat × ℤ :=
  let j := min (k * (m - 1) / 255) (m - 2)
  (j, (k * (m - 1) : ℤ) - 255 * j)

/-- One channel of a lookup-table entry, already rendered to its `to_hex`
byte: the exact channel value is `(255·a + (b-a)·r)/255²` in the unit
interval (linear interpolation between the anchor bytes `a`, `b` with
fraction `r/255`), and `to_hex` rounds its product with 255. -/
def interpByte (a b : Nat) (r : ℤ) : Nat :=
  (max 0 (min 255 (roundDiv (255 * (a : ℤ) + ((b : ℤ) - (a : ℤ)) * r) 255))).toNat

/-- Sample `i` of `n` gradient samples as a byte triple: the lookup-table
entry `sampleLutIndex n i`, interpolated between its segment's two anchor
colors and rounded to `to_hex` bytes. -/
def sampleColorAt (anchors : List (Nat × Nat × Nat)) (n i : Nat) : Nat × Nat × Nat :=
  let m := anchors.length
  let k := sampleLutIndex n i
  let (j, r) := lutSegment m k
  let a := anchors.getD j (0, 0, 0)
  let b := anchors.getD (j + 1) a
  (interpByte a.1 b.1 r, interpByte a.2.1 b.2.1 r, interpByte a.2.2 b.2.2 r)

/-- The interpolation branch of `get_palette` (lines 79-87): build the
256-entry colormap `LinearSegmentedColormap.from_list` makes of the
palette's anchor colors, sample it at `np.linspace(0, 1, n)`, and render
each sample back to hex with `to_hex`. -/
def sampleGradient (palette : List String) (n : Nat) : List String :=
  let anchors := palette.map hexToRgb
  (List.range n).map (fun i => rgbToHex (sampleColorAt anchors n i))

/-- `get_palette(name, n_colors)`. `sessionCustom` stands for the
`custom_colors` entry of the streamlit session state consulted by the
`name == 'custom'` branch. The guard `if n_colors and n_colors !=
len(palette)` treats both `None` and `0` as falsy, returning the stored
list unmodified; an unknown non-custom name falls through to the
colorblind-safe default list. -/
def get_palette (sessionCustom : Option (List String)) (name : String)
    (n_colors : Option Nat) : List String :=
  if name = "custom" then
    sessionCustom.getD ((dlookup COLORBLIND_SAFE "default").getD [])
  else
    match dlookup all_palettes name with
    | some palette =>
      match n_colors with
      | some n => if n ≠ 0 ∧ n ≠ palette.length then sampleGradient palette n else palette
      | none => palette
    | none => (dlookup COLORBLIND_SAFE "default").getD []

/-! The stacked branch of `BarPlotter.create_plot`
(`src/plotters/categorical/bar.py` lines 68-81): a running `bottom` vector
starts at zero and each declared y-column is drawn as bars based at the
current `bottom`, which then grows by that column, identically for both
orientations. -/

/-- Pointwise vector addition (`bottom += self.data[y_col]`). -/
def addVec (a b : List ℚ) : List ℚ := List.zipWith (· + ·) a b

/-- The stacked-bar loop: returns the `(baseline, values)` pair of every
drawn series in declared order together with the final running `bottom`. -/
def barStackedDraw (series : List (List ℚ)) (bottom : List ℚ) :
    List (List ℚ × List ℚ) × List ℚ :=
  match series with
  | [] => ([], bottom)
  | ys :: rest =>
    let (layers, final) := barStackedDraw rest (addVec bottom ys)
    ((bottom, ys) :: layers, final)

/-! Correlation-mode data preparation of `HeatmapPlotter.create_plot`
(`src/plotters/statistical/heatmap.py` lines 57-69): the matrix is
`DataFrame.corr()` of the selected value columns, or of all numeric
columns when none were set, and the color range is pinned to `[-1, 1]`.
A dataset column is `(name, some values)` when numeric and `(name, none)`
otherwise; a Pearson entry `n/√d` is represented by the pair `(n, d)` so
that everything stays inside `ℚ`, and `none` is the `NaN` pandas produces
when either column has zero centered sum of squares. -/

/-- A tabular dataset: named columns, numeric ones carrying their values. -/
def Dataset := List (String × Option (List ℚ))

/-- Column mean (`0` on an empty column, where pandas would give `NaN`;
such columns produce `NaN` correlation entries either way). -/
def colMean (l : List ℚ) : ℚ := l.sum / (l.length : ℚ)

/-- The column centered at its mean. -/
def centered (l : List ℚ) : List ℚ := l.map (fun x => x - colMean l)

/-- Sum of pointwise products. -/
def sdot (xs ys : List ℚ) : ℚ := (List.zipWith (· * ·) xs ys).sum

/-- Centered cross sum `Σ (x-x̄)(y-ȳ)`, the numerator pandas' Pearson
correlation divides by `√(Sxx⬝Syy)`. -/
def scov (xs ys : List ℚ) : ℚ := sdot (centered xs) (centered ys)

/-- One Pearson correlation entry as pandas computes it, represented
exactly: `some (n, d)` stands for `n/√d`; `none` is the `NaN` produced
when either column is constant (zero centered sum of squares). -/
def corrEntry (xs ys : List ℚ) : Option (ℚ × ℚ) :=
  if scov xs xs = 0 ∨ scov ys ys = 0 then none
  else some (scov xs ys, scov xs xs * scov ys ys)

/-- `DataFrame.corr()` over the given columns. -/
def corrMatrix (cols : List (List ℚ)) : List (List (Option (ℚ × ℚ))) :=
  cols.map (fun x => cols.map (fun y => corrEntry x y))

/-- The numeric columns of the dataset, in column order
(`pd.api.types.is_numeric_dtype` filter). -/
def numeric_columns (d : Dataset) : List (String × List ℚ) :=
  d.filterMap (fun p => match p.2 with
    | some v => some (p.1, v)
    | none => none)

/-- `self.data[self.value_columns]`: the selected columns in the given
order; selections the theorems use always resolve to numeric columns of
the dataset (on others pandas raises before reaching `.corr()`). -/
def select_columns (d : Dataset) (cs : List String) : List (String × List ℚ) :=
  cs.filterMap (fun c => ((dlookup d c).bind id).map (fun v => (c, v)))

/-- The correlation branch of the heatmap's `create_plot`: the columns it
correlates, the resulting matrix, and the pinned `(vmin, vmax)`. -/
def heatmap_corr_prepare (d : Dataset) (value_columns : Option (List String)) :
    List (String × List ℚ) × List (List (Option (ℚ × ℚ))) × (Option ℚ × Option ℚ) :=
  let cols := match value_columns with
    | some cs => select_columns d cs
    | none => numeric_columns d
  (cols, corrMatrix (cols.map Prod.snd), (some (-1), some 1))

/-- Entry of a matrix of correlation entries. -/
def mEntry (m : List (List (Option (ℚ × ℚ)))) (i j : Nat) :
    Option (Option (ℚ × ℚ)) :=
  (m.get? i).bind (fun row => row.get? j)

/-- Whether a represented correlation entry `n/√d` equals `1.0`: the entry
exists and `n` is positive with `n⬝n = d`. -/
def entryIsOneB (e : Option (ℚ × ℚ)) : Bool :=
  match e with
  | some (n, d) => decide (0 < n) && decide (n * n = d)
  | none => false

/-! The grouped branch of `HistogramPlotter.create_plot`
(`src/plotters/statistical/histogram.py` lines 72-89): one translucent
(`alpha=0.6`) histogram per distinct value of the group column in
first-occurrence order (`Series.unique`), each drawn by
`ax.hist(group_data, bins=self.bins, ...)` — an integer bin count, whose
edges numpy derives from that group's own data range. Values are modelled
without `NaN`s (`dropna` is then the identity). -/

/-- `Series.unique`: distinct values in order of first occurrence. -/
def uniqueFirst (l : List String) : List String :=
  l.foldl (fun acc g => if g ∈ acc then acc else acc ++ [g]) []

/-- Minimum of a value list (0 for the empty list, unused there). -/
def listMin (xs : List ℚ) : ℚ :=
  match xs with
  | [] => 0
  | h :: t => t.foldl min h

/-- Maximum of a value list (0 for the empty list, unused there). -/
def listMax (xs : List ℚ) : ℚ :=
  match xs with
  | [] => 0
  | h :: t => t.foldl max h

/-- `n` evenly spaced points from `a` to `b` (`numpy.linspace`). -/
def linspaceQ (a b : ℚ) (n : Nat) : List ℚ :=
  if n ≤ 1 then List.replicate n a
  else (List.range n).map (fun i : Nat => a + (b - a) * (i : ℚ) / ((n : ℚ) - 1))

/-- The bin edges `numpy.histogram` computes for an integer bin count:
`bins+1` evenly spaced edges over the data's own range, or over the
default range `(0, 1)` for empty data. -/
def histEdges (xs : List ℚ) (bins : Nat) : List ℚ :=
  match xs with
  | [] => linspaceQ 0 1 (bins + 1)
  | _ :: _ => linspaceQ (listMin xs) (listMax xs) (bins + 1)

/-- One drawn histogram overlay. -/
structure Overlay where
  label : String
  gdata : List ℚ
  edges : List ℚ
  alpha : ℚ
  deriving DecidableEq, Repr

/-- The grouped loop of the histogram's `create_plot`: for each distinct
group value, the rows of that group are selected
(`self.data[self.data[group] == g][value]`) and drawn as one translucent
layer with `bins` bins over that group's own range. -/
def histogram_group_overlays (values : List ℚ) (groups : List String)
    (bins : Nat) : List Overlay :=
  (uniqueFirst groups).map (fun g =>
    let gdata := (List.zip groups values).filterMap
      (fun p => if p.1 = g then some p.2 else none)
    { label := g, gdata := gdata, edges := histEdges gdata bins, alpha := 6/10 })

/-! Derived views of a discovery run, used to characterize `discover_plots`
for the idempotence proof: which id/class pairs a run registers, which
log lines it prints, and whether (and how) it dies. -/

/-- Sequential dictionary insertion of a list of key/value pairs. -/
def insertSeq {α : Type} (l : List (String × α)) (ps : List (String × α)) :
    List (String × α) :=
  ps.foldl (fun acc p => dinsert acc p.1 p.2) l

/-- The id/class pairs one loaded module's members contribute, in
inspection order. -/
def classPairs (category : String) (cs : List PClass) : List (String × PClass) :=
  (cs.filter (fun c => c.isPlotterSub && !c.isBase)).map
    (fun c => (category ++ "." ++ strLower c.cname, c))

/-- The id/class pairs one category's module loop registers before it
either finishes or dies on an uncaught exception. -/
def catPairs (category : String) : List PModule → List (String × PClass)
  | [] => []
  | m :: rest =>
    match m.result with
    | .ok cs => classPairs category cs ++ catPairs category rest
    | .importError _ => catPairs category rest
    | .otherError _ => []

/-- The lines the `except ImportError` handler prints during one
category's module loop. -/
def catLogs (category : String) : List PModule → List String
  | [] => []
  | m :: rest =>
    match m.result with
    | .ok _ => catLogs category rest
    | .importError msg =>
        ("Failed to import plotters." ++ category ++ "." ++ m.stem ++ ": " ++ msg) ::
          catLogs category rest
    | .otherError _ => []

/-- The first uncaught exception of a category's module loop, if any. -/
def modulesFatal : List PModule → Option String
  | [] => none
  | m :: rest =>
    match m.result with
    | .otherError e => some e
    | .ok _ => modulesFatal rest
    | .importError _ => modulesFatal rest

/-- The category directories a discovery run reaches before an uncaught
exception stops it (the dying category included: its list is reset before
its modules run). -/
def dirsProcessed : List CategoryDir → List CategoryDir
  | [] => []
  | d :: rest =>
    match modulesFatal d.modules with
    | some _ => [d]
    | none => d :: dirsProcessed rest

/-- All id/class pairs a discovery run registers. -/
def dirsPairs : List CategoryDir → List (String × PClass)
  | [] => []
  | d :: rest =>
    match modulesFatal d.modules with
    | some _ => catPairs d.dname d.modules
    | none => catPairs d.dname d.modules ++ dirsPairs rest

/-- The category-index entries a discovery run writes, in order. -/
def dirsCatEntries (dirs : List CategoryDir) : List (String × List String) :=
  (dirsProcessed dirs).map
    (fun d => (d.dname, (catPairs d.dname d.modules).map Prod.fst))

/-- All lines a discovery run prints. -/
def dirsLogs : List CategoryDir → List String
  | [] => []
  | d :: rest =>
    match modulesFatal d.modules with
    | some _ => catLogs d.dname d.modules
    | none => catLogs d.dname d.modules ++ dirsLogs rest

/-- The uncaught exception a discovery run propagates, if any. -/
def dirsFatal : List CategoryDir → Option String
  | [] => none
  | d :: rest =>
    match modulesFatal d.modules with
    | some e => some e
    | none => dirsFatal rest

/-! Dictionary lemmas shared by the registry theorems. -/

theorem dlookup_dinsert_self {α : Type} (l : List (String × α)) (k : String) (v : α) :
    dlookup (dinsert l k v) k = some v := by
  induction l with
  | nil => simp [dinsert, dlookup]
  | cons p t ih =>
    obtain ⟨k', v'⟩ := p
    by_cases h : k' = k
    · simp [dinsert, dlookup, h]
    · simp [dinsert, dlookup, h, ih]

theorem dlookup_dinsert_ne {α : Type} (l : List (String × α)) (k k' : String) (v : α)
    (h : k' ≠ k) : dlookup (dinsert l k' v) k = dlookup l k := by
  induction l with
  | nil => simp [dinsert, dlookup, h]
  | cons p t ih =>
    obtain ⟨k'', v''⟩ := p
    by_cases h' : k'' = k'
    · simp [dinsert, dlookup, h', h]
    · by_cases h'' : k'' = k
      · simp [dinsert, dlookup, h', h'', Ne.symm h]
      · simp [dinsert, dlookup, h', h'', ih]

theorem dinsert_eq_self {α : Type} (l : List (String × α)) (k : String) (v : α)
    (h : dlookup l k = some v) : dinsert l k v = l := by
  induction l with
  | nil => simp [dlookup] at h
  | cons p t ih =>
    obtain ⟨k', v'⟩ := p
    by_cases h' : k' = k
    · simp [dlookup, h'] at h
      simp [dinsert, h', h]
    · simp [dlookup, h'] at h
      simp [dinsert, h', ih h]

theorem dinsert_dinsert {α : Type} (l : List (String × α)) (k : String) (v w : α) :
    dinsert (dinsert l k v) k w = dinsert l k w := by
  induction l with
  | nil => simp [dinsert]
  | cons p t ih =>
    obtain ⟨k', v'⟩ := p
    by_cases h : k' = k
    · simp [dinsert, h]
    · simp [dinsert, h, ih]

theorem insertSeq_append {α : Type} (l : List (String × α))
    (ps qs : List (String × α)) :
    insertSeq l (ps ++ qs) = insertSeq (insertSeq l ps) qs := by
  simp [insertSeq, List.foldl_append]

theorem dlookup_insertSeq_not_mem {α : Type} (l ps : List (String × α)) (k : String)
    (h : k ∉ ps.map Prod.fst) :
    dlookup (insertSeq l ps) k = dlookup l k := by
  induction ps generalizing l with
  | nil => rfl
  | cons p t ih =>
    simp only [List.map_cons, List.mem_cons, not_or] at h
    show dlookup (insertSeq (dinsert l p.1 p.2) t) k = dlookup l k
    rw [ih _ h.2, dlookup_dinsert_ne _ _ _ _ (fun he => h.1 he.symm)]

theorem dlookup_insertSeq_mem {α : Type} (l ps : List (String × α))
    (hnd : (ps.map Prod.fst).Nodup) (p : String × α) (hp : p ∈ ps) :
    dlookup (insertSeq l ps) p.1 = some p.2 := by
  induction ps generalizing l with
  | nil => simp at hp
  | cons q t ih =>
    simp only [List.map_cons, List.nodup_cons] at hnd
    rcases List.mem_cons.mp hp with rfl | hp'
    · show dlookup (insertSeq (dinsert l p.1 p.2) t) p.1 = some p.2
      rw [dlookup_insertSeq_not_mem _ _ _ hnd.1, dlookup_dinsert_self]
    · exact ih (dinsert l q.1 q.2) hnd.2 hp'

theorem insertSeq_eq_self {α : Type} (l ps : List (String × α))
    (h : ∀ p ∈ ps, dlookup l p.1 = some p.2) :
    insertSeq l ps = l := by
  induction ps with
  | nil => rfl
  | cons p t ih =>
    show insertSeq (dinsert l p.1 p.2) t = l
    rw [dinsert_eq_self l p.1 p.2 (h p (by simp))]
    exact ih (fun q hq => h q (by simp [hq]))

/-- The member loop of one loaded module, characterized: it inserts the
module's filtered id/class pairs into the plot map, appends their ids to
the category's existing list, and never touches the log. -/
theorem discoverClass_foldl (cs : List PClass) (category : String) (s : RegState)
    (l : List String) (hl : dlookup s.categories category = some l) :
    (cs.foldl (fun st c => discoverClass st category c) s).plots =
      insertSeq s.plots (classPairs category cs) ∧
    (cs.foldl (fun st c => discoverClass st category c) s).categories =
      dinsert s.categories category (l ++ (classPairs category cs).map Prod.fst) ∧
    (cs.foldl (fun st c => discoverClass st category c) s).log = s.log := by
  induction cs generalizing s l with
  | nil =>
    refine ⟨rfl, ?_, rfl⟩
    simp [classPairs, dinsert_eq_self s.categories category l hl]
  | cons c t ih =>
    by_cases hc : c.isPlotterSub && !c.isBase
    · have hstep : discoverClass s category c =
          { s with
            plots := dinsert s.plots (category ++ "." ++ strLower c.cname) c,
            categories := dinsert s.categories category
              (l ++ [category ++ "." ++ strLower c.cname]) } := by
        simp [discoverClass, hc, hl]
      have hl' : dlookup (discoverClass s category c).categories category =
          some (l ++ [category ++ "." ++ strLower c.cname]) := by
        rw [hstep]
        exact dlookup_dinsert_self _ _ _
      obtain ⟨ih1, ih2, ih3⟩ := ih (discoverClass s category c) _ hl'
      have hfold : List.foldl (fun st c => discoverClass st category c) s (c :: t) =
          List.foldl (fun st c => discoverClass st category c)
            (discoverClass s category c) t := rfl
      refine ⟨?_, ?_, ?_⟩
      · rw [hfold, ih1, hstep]
        simp [classPairs, hc, insertSeq]
      · rw [hfold, ih2, hstep]
        simp only [classPairs, List.filter_cons, hc, List.map_cons, if_true]
        rw [dinsert_dinsert, List.append_assoc]
        rfl
      · rw [hfold, ih3, hstep]
    · have hstep : discoverClass s category c = s := by
        simp [discoverClass, hc]
      obtain ⟨ih1, ih2, ih3⟩ := ih (discoverClass s category c) l (by rw [hstep]; exact hl)
      rw [hstep] at ih1 ih2 ih3
      have hfold : List.foldl (fun st c => discoverClass st category c) s (c :: t) =
          List.foldl (fun st c => discoverClass st category c) s t := by
        show List.foldl (fun st c => discoverClass st category c)
            (discoverClass s category c) t = _
        rw [hstep]
      refine ⟨?_, ?_, ?_⟩
      · rw [hfold, ih1]
        simp [classPairs, hc]
      · rw [hfold, ih2]
        simp [classPairs, hc]
      · rw [hfold, ih3]

/-- The module loop of one category, characterized. -/
theorem discoverModules_spec (ms : List PModule) (category : String) (s : RegState)
    (l : List String) (hl : dlookup s.categories category = some l) :
    (discoverModules s category ms).1.plots =
      insertSeq s.plots (catPairs category ms) ∧
    (discoverModules s category ms).1.categories =
      dinsert s.categories category (l ++ (catPairs category ms).map Prod.fst) ∧
    (discoverModules s category ms).1.log = s.log ++ catLogs category ms ∧
    (discoverModules s category ms).2 = modulesFatal ms := by
  induction ms generalizing s l with
  | nil =>
    refine ⟨rfl, ?_, by simp [discoverModules, catLogs], rfl⟩
    simp [discoverModules, catPairs, dinsert_eq_self s.categories category l hl]
  | cons m t ih =>
    match hres : m.result with
    | .ok cs =>
      have hmod : discoverModule s category m =
          (cs.foldl (fun st c => discoverClass st category c) s, none) := by
        simp [discoverModule, hres]
      obtain ⟨f1, f2, f3⟩ := discoverClass_foldl cs category s l hl
      have hl' : dlookup (cs.foldl (fun st c => discoverClass st category c) s).categories
          category = some (l ++ (classPairs category cs).map Prod.fst) := by
        rw [f2]
        exact dlookup_dinsert_self _ _ _
      obtain ⟨ih1, ih2, ih3, ih4⟩ := ih _ _ hl'
      have hloop : discoverModules s category (m :: t) =
          discoverModules (cs.foldl (fun st c => discoverClass st category c) s)
            category t := by
        simp [discoverModules, hmod]
      refine ⟨?_, ?_, ?_, ?_⟩
      · rw [hloop, ih1, f1, catPairs, hres, insertSeq_append]
      · rw [hloop, ih2, f2, dinsert_dinsert, catPairs, hres]
        simp [List.append_assoc]
      · rw [hloop, ih3, f3, catLogs, hres]
      · rw [hloop, ih4, modulesFatal, hres]
    | .importError msg =>
      have hmod : discoverModule s category m =
          ({ s with log := s.log ++
              ["Failed to import plotters." ++ category ++ "." ++ m.stem ++ ": " ++ msg] },
           none) := by
        simp [discoverModule, hres]
      have hloop : discoverModules s category (m :: t) =
          discoverModules { s with log := s.log ++
              ["Failed to import plotters." ++ category ++ "." ++ m.stem ++ ": " ++ msg] }
            category t := by
        simp [discoverModules, hmod]
      obtain ⟨ih1, ih2, ih3, ih4⟩ := ih { s with log := s.log ++
          ["Failed to import plotters." ++ category ++ "." ++ m.stem ++ ": " ++ msg] } l hl
      refine ⟨?_, ?_, ?_, ?_⟩
      · rw [hloop, ih1, catPairs, hres]
      · rw [hloop, ih2, catPairs, hres]
      · rw [hloop, ih3, catLogs, hres]
        simp
      · rw [hloop, ih4, modulesFatal, hres]
    | .otherError e =>
      have hloop : discoverModules s category (m :: t) = (s, some e) := by
        simp [discoverModules, discoverModule, hres]
      refine ⟨?_, ?_, ?_, ?_⟩
      · rw [hloop, catPairs, hres]
        rfl
      · rw [hloop, catPairs, hres]
        simp [dinsert_eq_self s.categories category l hl]
      · rw [hloop, catLogs, hres]
        simp
      · rw [hloop, modulesFatal, hres]

/-- One outer-loop iteration of `discover_plots`, characterized. -/
theorem discoverCategory_spec (d : CategoryDir) (s : RegState) :
    (discoverCategory s d).1.plots = insertSeq s.plots (catPairs d.dname d.modules) ∧
    (discoverCategory s d).1.categories =
      dinsert s.categories d.dname ((catPairs d.dname d.modules).map Prod.fst) ∧
    (discoverCategory s d).1.log = s.log ++ catLogs d.dname d.modules ∧
    (discoverCategory s d).2 = modulesFatal d.modules := by
  have hl : dlookup ({ s with categories := dinsert s.categories d.dname [] }
      : RegState).categories d.dname = some [] := dlookup_dinsert_self _ _ _
  obtain ⟨h1, h2, h3, h4⟩ := discoverModules_spec d.modules d.dname
    { s with categories := dinsert s.categories d.dname [] } [] hl
  exact ⟨h1, by rw [discoverCategory] at *; rw [h2]; simp [dinsert_dinsert], h3, h4⟩

/-- A whole `discover_plots` run, characterized: it inserts `dirsPairs`,
writes the `dirsCatEntries` category entries, appends `dirsLogs`, and
propagates `dirsFatal`. -/
theorem discover_plots_spec (dirs : List CategoryDir) (s : RegState) :
    (discover_plots s dirs).1.plots = insertSeq s.plots (dirsPairs dirs) ∧
    (discover_plots s dirs).1.categories = insertSeq s.categories (dirsCatEntries dirs) ∧
    (discover_plots s dirs).1.log = s.log ++ dirsLogs dirs ∧
    (discover_plots s dirs).2 = dirsFatal dirs := by
  induction dirs generalizing s with
  | nil => exact ⟨rfl, rfl, by simp [discover_plots, dirsLogs], rfl⟩
  | cons d rest ih =>
    obtain ⟨c1, c2, c3, c4⟩ := discoverCategory_spec d s
    have hunfold : discover_plots s (d :: rest) =
        (match discoverCategory s d with
         | (s', none) => discover_plots s' rest
         | (s', some e) => (s', some e)) := rfl
    match hf : modulesFatal d.modules with
    | some e =>
      have hpair : discoverCategory s d = ((discoverCategory s d).1, some e) := by
        rw [← c4.trans hf]
      have hstep : discover_plots s (d :: rest) = ((discoverCategory s d).1, some e) := by
        rw [hunfold, hpair]
      refine ⟨?_, ?_, ?_, ?_⟩
      · rw [hstep, c1, dirsPairs, hf]
      · rw [hstep, c2]
        simp only [dirsCatEntries, dirsProcessed, hf]
        rfl
      · rw [hstep, c3, dirsLogs, hf]
      · rw [hstep, dirsFatal, hf]
    | none =>
      have hpair : discoverCategory s d = ((discoverCategory s d).1, none) := by
        rw [← c4.trans hf]
      have hstep : discover_plots s (d :: rest) =
          discover_plots (discoverCategory s d).1 rest := by
        rw [hunfold, hpair]
      obtain ⟨ih1, ih2, ih3, ih4⟩ := ih (discoverCategory s d).1
      refine ⟨?_, ?_, ?_, ?_⟩
      · rw [hstep, ih1, c1, dirsPairs, hf, insertSeq_append]
      · rw [hstep, ih2, c2]
        simp only [dirsCatEntries, dirsProcessed, hf, List.map_cons]
        rfl
      · rw [hstep, ih3, c3, dirsLogs, hf, List.append_assoc]
      · rw [hstep, ih4, dirsFatal, hf]

/-- C1: in a discovery run where one chart module's import raises an error
that is not an `ImportError` — here the repository's own
`statistical/heatmap.py`, whose class body raises `NameError` because
`List` is not imported — the error is not logged and swallowed: it
propagates out of `discover_plots`, the failing module's plotters are
absent, and discovery of every module after it is aborted as well
(`histogram`, `scatter` and the whole `temporal` category never get
registered), contradicting the claim that discovery logs any failure,
continues with the rest, and never lets the error escape. -/
theorem claim_C1_discovery_fatal :
    (discover_plots {} repoDirs).2 = some "NameError: name List is not defined" ∧
    dlookup (discover_plots {} repoDirs).1.plots "statistical.heatmapplotter" = none ∧
    dlookup (discover_plots {} repoDirs).1.plots "statistical.histogramplotter" = none ∧
    dlookup (discover_plots {} repoDirs).1.plots "statistical.scatterplotter" = none ∧
    dlookup (discover_plots {} repoDirs).1.plots "temporal.lineplotter" = none ∧
    (discover_plots {} repoDirs).1.log = [] ∧
    dlookup (discover_plots {} repoDirs).1.plots "categorical.barplotter" =
      some barPlotterClass ∧
    dlookup (discover_plots {} repoDirs).1.plots "statistical.boxplotter" =
      some boxPlotterClass := by
  decide

/-- C4: `create_plot` on an identifier with no binding returns `None`
(total, so nothing is raised) and `get_plot_info` returns the empty
dictionary; on a bound identifier `create_plot` returns an instance of the
bound class constructed with exactly the given data and config. -/
theorem claim_C4_unknown_id (s : RegState) (plot_id : String) {δ γ : Type}
    (data : δ) (config : γ) :
    (get_plot s plot_id = none →
      create_plot s plot_id data config = none ∧ get_plot_info s plot_id = none) ∧
    (∀ c, get_plot s plot_id = some c →
      create_plot s plot_id data config = some ⟨c, data, config⟩) := by
  constructor
  · intro h
    simp [create_plot, get_plot_info, h]
  · intro c h
    simp [create_plot, h]

/-- Witness for C4 at the registry state discovery actually builds: the
unknown id `temporal.lineplotter` (absent because discovery died first)
yields no instance and empty info, and the known id
`categorical.barplotter` yields an instance of `BarPlotter` carrying the
given data and config. -/
theorem claim_C4_unknown_id_witness :
    (create_plot (discover_plots {} repoDirs).1 "temporal.lineplotter" (7 : Nat) "cfg" = none ∧
      get_plot_info (discover_plots {} repoDirs).1 "temporal.lineplotter" = none) ∧
    create_plot (discover_plots {} repoDirs).1 "categorical.barplotter" (7 : Nat) "cfg" =
      some ⟨barPlotterClass, 7, "cfg"⟩ :=
  ⟨(claim_C4_unknown_id (discover_plots {} repoDirs).1 "temporal.lineplotter" 7 "cfg").1
      (by decide),
   (claim_C4_unknown_id (discover_plots {} repoDirs).1 "categorical.barplotter" 7 "cfg").2
      barPlotterClass (by decide)⟩

/-- Running `discover_plots` a second time over any module tree whose
registered ids and category names are collision-free reproduces exactly
the catalog of the first run and terminates the same way (only the log
grows). -/
theorem discover_plots_idem (dirs : List CategoryDir) (s : RegState)
    (hp : ((dirsPairs dirs).map Prod.fst).Nodup)
    (hc : ((dirsCatEntries dirs).map Prod.fst).Nodup) :
    catalog (discover_plots (discover_plots s dirs).1 dirs).1 =
      catalog (discover_plots s dirs).1 ∧
    (discover_plots (discover_plots s dirs).1 dirs).2 = (discover_plots s dirs).2 := by
  obtain ⟨p1, c1, _, e1⟩ := discover_plots_spec dirs s
  obtain ⟨p2, c2, _, e2⟩ := discover_plots_spec dirs (discover_plots s dirs).1
  refine ⟨?_, by rw [e1, e2]⟩
  have hplots : insertSeq (insertSeq s.plots (dirsPairs dirs)) (dirsPairs dirs) =
      insertSeq s.plots (dirsPairs dirs) :=
    insertSeq_eq_self _ _
      (fun p hp' => dlookup_insertSeq_mem s.plots (dirsPairs dirs) hp p hp')
  have hcats : insertSeq (insertSeq s.categories (dirsCatEntries dirs))
      (dirsCatEntries dirs) = insertSeq s.categories (dirsCatEntries dirs) :=
    insertSeq_eq_self _ _
      (fun p hp' => dlookup_insertSeq_mem s.categories (dirsCatEntries dirs) hc p hp')
  unfold catalog
  rw [p2, c2, p1, c1, hplots, hcats]

/-- C5: running discovery twice yields the catalog of a single run. For
every module tree without id or category-name collisions (the repository's
tree is one, as the witness checks), a second `discover_plots` run leaves
the id → class map and the per-category id lists exactly as the first run
left them and terminates the same way; on the repository's own tree the
discovered per-category lists carry no duplicate entries; and registry
construction goes through the `_initialized` one-time guard, so a second
initialization from any state changes nothing and reports no error. -/
theorem claim_C5_discovery_idempotent :
    (∀ (dirs : List CategoryDir) (s : RegState),
      ((dirsPairs dirs).map Prod.fst).Nodup →
      ((dirsCatEntries dirs).map Prod.fst).Nodup →
      catalog (discover_plots (discover_plots s dirs).1 dirs).1 =
        catalog (discover_plots s dirs).1 ∧
      (discover_plots (discover_plots s dirs).1 dirs).2 =
        (discover_plots s dirs).2) ∧
    (get_categories (discover_plots {} repoDirs).1 = ["categorical", "statistical"] ∧
      (get_plots_in_category (discover_plots {} repoDirs).1 "categorical").Nodup ∧
      (get_plots_in_category (discover_plots {} repoDirs).1 "statistical").Nodup) ∧
    (∀ dirs : List CategoryDir, ∀ r : Registry,
      (initRegistry dirs (initRegistry dirs r).1).1 = (initRegistry dirs r).1 ∧
      (initRegistry dirs (initRegistry dirs r).1).2 = none) := by
  refine ⟨discover_plots_idem, by decide, ?_⟩
  intro dirs r
  by_cases h : r.initialized
  · simp [initRegistry, h]
  · simp [initRegistry, h]

/-- Witness for C5 at the repository's own module tree, whose ids and
category names are collision-free: a second run reproduces the first
run's catalog and dies on the same uncaught `NameError`. -/
theorem claim_C5_discovery_idempotent_witness :
    catalog (discover_plots (discover_plots {} repoDirs).1 repoDirs).1 =
      catalog (discover_plots {} repoDirs).1 ∧
    (discover_plots (discover_plots {} repoDirs).1 repoDirs).2 =
      (discover_plots {} repoDirs).2 :=
  claim_C5_discovery_idempotent.1 repoDirs {} (by decide) (by decide)

/-- The category list gains exactly one copy of the id on every explicit
`register` call, whether or not the id was already present. -/
theorem register_cat_list (s : RegState) (cat : String) (nm : Option String)
    (c : PClass) :
    get_plots_in_category (register s cat nm c) cat =
      get_plots_in_category s cat ++ [cat ++ "." ++ nm.getD (strLower c.cname)] := by
  unfold register get_plots_in_category
  cases h : dlookup s.categories cat with
  | none => simp [h, dlookup_dinsert_self]
  | some l => simp [h, dlookup_dinsert_self]

/-- C2 fails on the code: calling `register` twice with the same id leaves
that id twice in the list `get_plots_in_category` returns for its
category, so a plot identifier is not unique across the registry after an
ordinary sequence of explicit register calls. -/
theorem claim_C2_counterexample :
    get_plots_in_category
        (register (register {} "categorical" (some "bar") barPlotterClass)
          "categorical" (some "bar") barPlotterClass) "categorical" =
      ["categorical.bar", "categorical.bar"] ∧
    ¬ (get_plots_in_category
        (register (register {} "categorical" (some "bar") barPlotterClass)
          "categorical" (some "bar") barPlotterClass) "categorical").Nodup := by
  constructor
  · decide
  · decide

/-- C2 amended: the id → class map is single-valued, so an id is bound to
at most one plotter type at a time; but the category index does not keep
ids unique — a repeated explicit `register` call with the same id appends
the id to its category's list again — and discovery, on finding an id
already bound to a different type, silently overwrites the binding and
flags nothing (its log is untouched). -/
theorem claim_C2_amended :
    (∀ (s : RegState) (pid : String) (c₁ c₂ : PClass),
      get_plot s pid = some c₁ → get_plot s pid = some c₂ → c₁ = c₂) ∧
    (∀ (s : RegState) (cat : String) (nm : Option String) (c : PClass),
      get_plots_in_category (register (register s cat nm c) cat nm c) cat =
        get_plots_in_category s cat ++
          [cat ++ "." ++ nm.getD (strLower c.cname),
           cat ++ "." ++ nm.getD (strLower c.cname)]) ∧
    (∀ (s : RegState) (cat : String) (c c' : PClass),
      c.isPlotterSub = true → c.isBase = false →
      c'.isPlotterSub = true → c'.isBase = false →
      strLower c.cname = strLower c'.cname →
      get_plot (discoverClass (discoverClass s cat c) cat c')
          (cat ++ "." ++ strLower c.cname) = some c' ∧
      (discoverClass (discoverClass s cat c) cat c').log = s.log) := by
  refine ⟨?_, ?_, ?_⟩
  · intro s pid c₁ c₂ h₁ h₂
    rw [h₁] at h₂
    exact (Option.some.injEq _ _ ▸ h₂)
  · intro s cat nm c
    rw [register_cat_list, register_cat_list, List.append_assoc]
    rfl
  · intro s cat c c' h1 h2 h3 h4 h5
    constructor
    · simp [discoverClass, h1, h2, h3, h4, get_plot, h5, dlookup_dinsert_self]
    · simp [discoverClass, h1, h2, h3, h4]

/-- Witness for C2 amended, at two registrations of `BarPlotter` under
`categorical.bar` and a discovery collision between `BarPlotter` and a
distinct class of the same name. -/
theorem claim_C2_amended_witness :
    (get_plots_in_category
        (register (register {} "categorical" (some "bar") barPlotterClass)
          "categorical" (some "bar") barPlotterClass) "categorical" =
      get_plots_in_category ({} : RegState) "categorical" ++
        ["categorical.bar", "categorical.bar"]) ∧
    (get_plot
        (discoverClass (discoverClass {} "categorical" barPlotterClass)
          "categorical" { barPlotterClass with uid := 99 })
        ("categorical" ++ "." ++ strLower barPlotterClass.cname) =
      some { barPlotterClass with uid := 99 } ∧
    (discoverClass (discoverClass {} "categorical" barPlotterClass)
        "categorical" { barPlotterClass with uid := 99 }).log = ([] : List String)) :=
  ⟨claim_C2_amended.2.1 {} "categorical" (some "bar") barPlotterClass,
   claim_C2_amended.2.2 {} "categorical" barPlotterClass
     { barPlotterClass with uid := 99 } rfl rfl rfl rfl rfl⟩

/-- C3: the template `plot()` raises `ValueError "Invalid data for <chart
name>"` exactly when `validate_data()` is false, in which case no phase of
the drawing pipeline runs; when validation passes it executes exactly
`create_plot`, then the shared styling from the config, then the config's
free-form annotations, in that order, and returns the figure/axes pair
that `create_plot` produced (threaded through the two styling phases that
mutate it in place). -/
theorem claim_C3_plot_template (p : PlotterRun) :
    ((∃ e, (BasePlotter_plot p).1 = Except.error e) ↔ p.validate_data = false) ∧
    (p.validate_data = false →
      BasePlotter_plot p = (Except.error ("Invalid data for " ++ p.name), [])) ∧
    (p.validate_data = true →
      BasePlotter_plot p =
        (Except.ok ((apply_styling p.config p.create_result.1 p.create_result.2).1,
            add_anns p.config (apply_styling p.config p.create_result.1 p.create_result.2).2),
         [PhaseStep.createPhase, PhaseStep.stylePhase, PhaseStep.annotatePhase])) := by
  obtain ⟨name, v, ⟨fig, ax⟩, cfg⟩ := p
  cases v <;> simp [BasePlotter_plot]

/-- Witness for C3: an invalid heatmap run raises the chart-named error
with no phase executed, and a valid run returns the styled pair with the
three phases in order. -/
theorem claim_C3_plot_template_witness :
    BasePlotter_plot
        { name := "Heatmap", validate_data := false,
          create_result := ({}, {}), config := {} } =
      (Except.error "Invalid data for Heatmap", []) ∧
    BasePlotter_plot
        { name := "Bar Chart", validate_data := true,
          create_result := ({}, {}), config := {} } =
      (Except.ok ((apply_styling {} ({} : Figure) ({} : Axes)).1,
          add_anns {} (apply_styling {} ({} : Figure) ({} : Axes)).2),
       [PhaseStep.createPhase, PhaseStep.stylePhase, PhaseStep.annotatePhase]) :=
  ⟨(claim_C3_plot_template _).2.1 rfl, (claim_C3_plot_template _).2.2 rfl⟩

/-- The gradient sampler returns exactly the requested number of colors. -/
theorem sampleGradient_length (palette : List String) (n : Nat) :
    (sampleGradient palette n).length = n := by
  simp [sampleGradient]

/-- C10: any palette name other than `custom` that is not among the known
palette names resolves to the stored colorblind-safe `default` palette of
seven colors, whatever count is requested; the result is never empty and
the lookup is total, so a misspelled name silently yields default colors
instead of an error. -/
theorem claim_C10_unknown_palette (custom : Option (List String)) (name : String)
    (n : Option Nat) (h1 : name ≠ "custom") (h2 : dlookup all_palettes name = none) :
    get_palette custom name n =
      ["#0173B2", "#DE8F05", "#029E73", "#CC78BC", "#ECE133", "#56B4E9", "#F0E442"] ∧
    (get_palette custom name n).length = 7 ∧
    get_palette custom name n ≠ [] := by
  have h : get_palette custom name n =
      ["#0173B2", "#DE8F05", "#029E73", "#CC78BC", "#ECE133", "#56B4E9", "#F0E442"] := by
    simp [get_palette, h1, h2]
    decide
  exact ⟨h, by rw [h]; decide, by rw [h]; decide⟩

/-- Witness for C10 at the misspelled name `viridi` with a requested count
of 5: the seven default colors come back. -/
theorem claim_C10_unknown_palette_witness :
    get_palette none "viridi" (some 5) =
      ["#0173B2", "#DE8F05", "#029E73", "#CC78BC", "#ECE133", "#56B4E9", "#F0E442"] ∧
    (get_palette none "viridi" (some 5)).length = 7 ∧
    get_palette none "viridi" (some 5) ≠ [] :=
  claim_C10_unknown_palette none "viridi" (some 5) (by decide) (by decide)

/-- C6 fails on the code in two ways. A requested count of 0 differs from
every palette's native size, yet `get_palette` returns the native
seven-color `default` list rather than 0 colors, because `if n_colors and
...` treats 0 as falsy. And the sampled colors need not be distinct: with
a count of 300 the 256-entry colormap lookup table is exhausted, and
already the first two samples are the same color `#0173b2`, so the result
is not a list of 300 distinct colors. -/
theorem claim_C6_counterexample :
    (get_palette none "default" (some 0) =
      ["#0173B2", "#DE8F05", "#029E73", "#CC78BC", "#ECE133", "#56B4E9", "#F0E442"] ∧
    (get_palette none "default" (some 0)).length ≠ 0) ∧
    ((get_palette none "default" (some 300)).length = 300 ∧
    (get_palette none "default" (some 300)).get? 0 = some "#0173b2" ∧
    (get_palette none "default" (some 300)).get? 1 = some "#0173b2" ∧
    ¬ (get_palette none "default" (some 300)).Nodup) := by
  constructor
  · constructor
    · decide
    · decide
  · refine ⟨?_, by decide, by decide, ?_⟩
    · set_option maxRecDepth 100000 in decide
    · set_option maxRecDepth 100000 in decide

/-- C6 amended: `get_palette` is a pure function of its arguments; for a
known palette name, requesting no count, count 0 (falsy in the guard) or
the native count returns the stored list unmodified; any other count `n`
returns exactly `n` colors — not necessarily distinct — sampled
deterministically from the 256-level gradient built from the palette's
anchor colors at evenly spaced positions. -/
theorem claim_C6_amended :
    (∀ (name : String) (palette : List String) (custom : Option (List String)),
      dlookup all_palettes name = some palette → name ≠ "custom" →
      get_palette custom name none = palette ∧
      get_palette custom name (some 0) = palette ∧
      get_palette custom name (some palette.length) = palette) ∧
    (∀ (name : String) (palette : List String) (custom : Option (List String)) (n : Nat),
      dlookup all_palettes name = some palette → name ≠ "custom" →
      n ≠ 0 → n ≠ palette.length →
      get_palette custom name (some n) = sampleGradient palette n ∧
      (get_palette custom name (some n)).length = n) := by
  constructor
  · intro name palette custom h hc
    refine ⟨?_, ?_, ?_⟩ <;> simp [get_palette, hc, h]
  · intro name palette custom n h hc h0 hl
    have he : get_palette custom name (some n) = sampleGradient palette n := by
      simp [get_palette, hc, h, h0, hl]
    exact ⟨he, by rw [he, sampleGradient_length]⟩

/-- Witness for C6 amended at the `tol` palette: its native list comes
back for no count, count 0 and count 8, and a requested count of 3 yields
exactly 3 gradient samples. -/
theorem claim_C6_amended_witness :
    (get_palette none "tol" none =
      ["#332288", "#117733", "#44AA99", "#88CCEE", "#DDCC77", "#CC6677", "#AA4499", "#882255"] ∧
    get_palette none "tol" (some 0) =
      ["#332288", "#117733", "#44AA99", "#88CCEE", "#DDCC77", "#CC6677", "#AA4499", "#882255"] ∧
    get_palette none "tol" (some 8) =
      ["#332288", "#117733", "#44AA99", "#88CCEE", "#DDCC77", "#CC6677", "#AA4499", "#882255"]) ∧
    (get_palette none "tol" (some 3)).length = 3 := by
  constructor
  · have h := claim_C6_amended.1 "tol"
      ["#332288", "#117733", "#44AA99", "#88CCEE", "#DDCC77", "#CC6677", "#AA4499", "#882255"]
      none (by decide) (by decide)
    exact ⟨h.1, h.2.1, h.2.2⟩
  · exact (claim_C6_amended.2 "tol"
      ["#332288", "#117733", "#44AA99", "#88CCEE", "#DDCC77", "#CC6677", "#AA4499", "#882255"]
      none 3 (by decide) (by decide) (by decide) (by decide)).2

/-! Vector lemmas for the stacked-bar fold. -/

theorem addVec_length (a b : List ℚ) : (addVec a b).length = min a.length b.length := by
  simp [addVec]

theorem addVec_getD (a b : List ℚ) (k : Nat) (ha : k < a.length) (hb : k < b.length) :
    (addVec a b).getD k 0 = a.getD k 0 + b.getD k 0 := by
  induction a generalizing b k with
  | nil => simp at ha
  | cons x xs ih =>
    cases b with
    | nil => simp at hb
    | cons y ys =>
      cases k with
      | zero => simp [addVec]
      | succ k =>
        simp only [addVec, List.zipWith_cons_cons, List.getD_cons_succ]
        exact ih ys k (by simpa using ha) (by simpa using hb)

theorem foldl_addVec_length (ss : List (List ℚ)) (b : List ℚ) (K : Nat)
    (hb : b.length = K) (hs : ∀ s ∈ ss, s.length = K) :
    (ss.foldl addVec b).length = K := by
  induction ss generalizing b with
  | nil => simpa using hb
  | cons s t ih =>
    simp only [List.foldl_cons]
    refine ih (addVec b s) ?_ (fun x hx => hs x (by simp [hx]))
    rw [addVec_length, hb, hs s (by simp)]
    simp

theorem foldl_addVec_getD (ss : List (List ℚ)) (b : List ℚ) (K : Nat)
    (hb : b.length = K) (hs : ∀ s ∈ ss, s.length = K) (k : Nat) (hk : k < K) :
    (ss.foldl addVec b).getD k 0 = b.getD k 0 + (ss.map (fun s => s.getD k 0)).sum := by
  induction ss generalizing b with
  | nil => simp
  | cons s t ih =>
    simp only [List.foldl_cons, List.map_cons, List.sum_cons]
    rw [ih (addVec b s)
        (by rw [addVec_length, hb, hs s (by simp)]; simp)
        (fun x hx => hs x (by simp [hx])),
      addVec_getD b s k (by rw [hb]; exact hk) (by rw [hs s (by simp)]; exact hk)]
    ring

theorem getD_replicate_zero (K k : Nat) : (List.replicate K (0 : ℚ)).getD k 0 = 0 := by
  induction K generalizing k with
  | zero => simp
  | succ K ih =>
    cases k with
    | zero => simp [List.replicate]
    | succ k =>
      simp only [List.replicate, List.getD_cons_succ]
      exact ih k

theorem barStackedDraw_snd (ss : List (List ℚ)) (b : List ℚ) :
    (barStackedDraw ss b).2 = ss.foldl addVec b := by
  induction ss generalizing b with
  | nil => simp [barStackedDraw]
  | cons s t ih => simp [barStackedDraw, ih]

theorem barStackedDraw_fst_length (ss : List (List ℚ)) (b : List ℚ) :
    (barStackedDraw ss b).1.length = ss.length := by
  induction ss generalizing b with
  | nil => simp [barStackedDraw]
  | cons s t ih => simp [barStackedDraw, ih]

theorem barStackedDraw_get (ss : List (List ℚ)) (b : List ℚ) (i : Nat)
    (h : i < (barStackedDraw ss b).1.length) :
    (barStackedDraw ss b).1.get ⟨i, h⟩ =
      ((ss.take i).foldl addVec b, ss.getD i []) := by
  induction ss generalizing b i with
  | nil => simp [barStackedDraw] at h
  | cons s t ih =>
    cases i with
    | zero => simp [barStackedDraw]
    | succ i =>
      have h' : i < (barStackedDraw t (addVec b s)).1.length := by
        have := h
        simp [barStackedDraw_fst_length] at this ⊢
        omega
      have : (barStackedDraw (s :: t) b).1.get ⟨i + 1, h⟩ =
          (barStackedDraw t (addVec b s)).1.get ⟨i, h'⟩ := by
        simp [barStackedDraw]
      rw [this, ih (addVec b s) i h']
      simp

theorem barStackedDraw_map_snd (ss : List (List ℚ)) (b : List ℚ) :
    (barStackedDraw ss b).1.map Prod.snd = ss := by
  induction ss generalizing b with
  | nil => simp [barStackedDraw]
  | cons s t ih => simp [barStackedDraw, ih]

/-- C7: in the stacked-bar loop over `N` declared series of `K` categories
each, the baseline of series `i` at category `k` is the sum of the values
of series `0..i-1` at `k`, accumulated in declared order from the zero
vector, and the running `bottom` left after the last series — the
cumulative top of the `N`-th series — equals at every category `k` the sum
of all `N` series values at `k`; the arithmetic is exact rationals, so
equality holds outright rather than within a floating-point tolerance. -/
theorem claim_C7_stacked_bar (series : List (List ℚ)) (K : Nat)
    (hlen : ∀ s ∈ series, s.length = K) :
    (∀ i, ∀ h : i < (barStackedDraw series (List.replicate K 0)).1.length,
      ∀ k, k < K →
      ((barStackedDraw series (List.replicate K 0)).1.get ⟨i, h⟩).1.getD k 0 =
        ((series.take i).map (fun s => s.getD k 0)).sum) ∧
    (∀ k, k < K →
      (barStackedDraw series (List.replicate K 0)).2.getD k 0 =
        (series.map (fun s => s.getD k 0)).sum) ∧
    (barStackedDraw series (List.replicate K 0)).1.map Prod.snd = series := by
  refine ⟨?_, ?_, barStackedDraw_map_snd series _⟩
  · intro i h k hk
    rw [barStackedDraw_get]
    simp only
    rw [foldl_addVec_getD (series.take i) (List.replicate K 0) K (by simp)
        (fun s hs => hlen s (List.mem_of_mem_take hs)) k hk,
      getD_replicate_zero, zero_add]
  · intro k hk
    rw [barStackedDraw_snd,
      foldl_addVec_getD series (List.replicate K 0) K (by simp) hlen k hk,
      getD_replicate_zero, zero_add]

/-- Witness for C7 on two series over two categories: the baseline of the
second series and the final cumulative top both equal the declared sums. -/
theorem claim_C7_stacked_bar_witness :
    ((barStackedDraw [[1, 2], [3, 4]] (List.replicate 2 (0 : ℚ))).1.get
        ⟨1, by decide⟩).1.getD 1 0 =
      ((([[1, 2], [3, 4]] : List (List ℚ)).take 1).map (fun s => s.getD 1 0)).sum ∧
    (barStackedDraw [[1, 2], [3, 4]] (List.replicate 2 (0 : ℚ))).2.getD 0 0 =
      (([[1, 2], [3, 4]] : List (List ℚ)).map (fun s => s.getD 0 0)).sum :=
  ⟨(claim_C7_stacked_bar [[1, 2], [3, 4]] 2
      (by intro s hs; fin_cases hs <;> rfl)).1 1 (by decide) 1 (by decide),
   (claim_C7_stacked_bar [[1, 2], [3, 4]] 2
      (by intro s hs; fin_cases hs <;> rfl)).2.1 0 (by decide)⟩

/-! Correlation-matrix lemmas. -/

theorem sdot_comm (xs ys : List ℚ) : sdot xs ys = sdot ys xs := by
  unfold sdot
  rw [List.zipWith_comm_of_comm]
  exact fun a b => mul_comm a b

theorem scov_comm (xs ys : List ℚ) : scov xs ys = scov ys xs := by
  unfold scov
  exact sdot_comm _ _

theorem sdot_self_nonneg (xs : List ℚ) : 0 ≤ sdot xs xs := by
  unfold sdot
  induction xs with
  | nil => simp
  | cons x t ih =>
    simp only [List.zipWith_cons_cons, List.sum_cons]
    exact add_nonneg (mul_self_nonneg x) ih

theorem corrEntry_comm (xs ys : List ℚ) : corrEntry xs ys = corrEntry ys xs := by
  unfold corrEntry
  by_cases h1 : scov xs xs = 0 <;> by_cases h2 : scov ys ys = 0 <;>
    simp [h1, h2, scov_comm xs ys, mul_comm]

theorem corrMatrix_symm (cols : List (List ℚ)) (i j : Nat) :
    mEntry (corrMatrix cols) i j = mEntry (corrMatrix cols) j i := by
  simp only [mEntry, corrMatrix, List.get?_eq_getElem?, List.getElem?_map]
  cases hx : cols[i]? with
  | none => cases hy : cols[j]? <;> simp [hx, hy]
  | some x =>
    cases hy : cols[j]? with
    | none => simp [hx, hy]
    | some y => simp [List.getElem?_map, hx, hy, corrEntry_comm]

theorem corrEntry_self_isOne (x : List ℚ) (h : scov x x ≠ 0) :
    entryIsOneB (corrEntry x x) = true := by
  have hpos : 0 < scov x x :=
    lt_of_le_of_ne (sdot_self_nonneg (centered x)) (Ne.symm h)
  simp [corrEntry, entryIsOneB, h, hpos]

theorem corrMatrix_diag_isOne (cols : List (List ℚ)) (i : Nat) (x : List ℚ)
    (hx : cols[i]? = some x) (h : scov x x ≠ 0) :
    (mEntry (corrMatrix cols) i i).map entryIsOneB = some true := by
  simp only [mEntry, corrMatrix, List.get?_eq_getElem?, List.getElem?_map, hx]
  simp [hx, corrEntry_self_isOne x h]

/-- C8 fails on the code: in correlation mode the diagonal entry of a
constant column is the `NaN` pandas produces on zero variance, not `1.0`.
On the dataset with numeric columns `a = [1, 1]` and `b = [1, 2]` and no
explicit value columns, the matrix's `(0, 0)` entry exists but is `NaN`,
so it does not equal `1.0`. -/
theorem claim_C8_counterexample :
    mEntry (heatmap_corr_prepare [("a", some [1, 1]), ("b", some [1, 2])] none).2.1 0 0 =
      some none ∧
    (mEntry (heatmap_corr_prepare [("a", some [1, 1]), ("b", some [1, 2])] none).2.1 0 0).map
      entryIsOneB = some false := by
  have h : scov [(1 : ℚ), 1] [(1 : ℚ), 1] = 0 := by
    norm_num [scov, sdot, centered, colMean]
  constructor
  · simp [heatmap_corr_prepare, numeric_columns, corrMatrix, mEntry, corrEntry, h]
  · simp [heatmap_corr_prepare, numeric_columns, corrMatrix, mEntry, corrEntry, h, entryIsOneB]

/-- C8 amended: for every dataset, correlation mode builds the matrix over
the selected value columns (or all numeric columns when none are set) and
pins the color range to `[-1, 1]`; the matrix is exactly symmetric; and a
diagonal entry equals `1.0` for every selected column of nonzero centered
sum of squares — for a constant (or too short) column it is `NaN` instead.
An entry `n/√d` is represented by the pair `(n, d)`, equality with `1.0`
being `0 < n ∧ n·n = d`; exact rational arithmetic replaces floating
point, so symmetry is outright equality. -/
theorem claim_C8_amended (d : Dataset) (vcols : Option (List String)) :
    (heatmap_corr_prepare d vcols).2.2 = (some (-1), some 1) ∧
    (∀ i j, mEntry (heatmap_corr_prepare d vcols).2.1 i j =
      mEntry (heatmap_corr_prepare d vcols).2.1 j i) ∧
    (∀ i col, (heatmap_corr_prepare d vcols).1.get? i = some col →
      scov col.2 col.2 ≠ 0 →
      (mEntry (heatmap_corr_prepare d vcols).2.1 i i).map entryIsOneB = some true) := by
  refine ⟨rfl, ?_, ?_⟩
  · intro i j
    exact corrMatrix_symm _ i j
  · intro i col h hne
    have hX : ((heatmap_corr_prepare d vcols).1.map Prod.snd)[i]? = some col.2 := by
      rw [List.getElem?_map, ← List.get?_eq_getElem?, h]
      rfl
    show (mEntry (corrMatrix ((heatmap_corr_prepare d vcols).1.map Prod.snd)) i i).map
        entryIsOneB = some true
    exact corrMatrix_diag_isOne _ i col.2 hX hne

/-- Witness for C8 amended: on columns `a = [1, 2]`, `b = [2, 1]` the range
is pinned, the off-diagonal entries agree, and the diagonal entry of the
non-constant column `a` equals `1.0`. -/
theorem claim_C8_amended_witness :
    (heatmap_corr_prepare [("a", some [1, 2]), ("b", some [2, 1])] none).2.2 =
      (some (-1), some 1) ∧
    mEntry (heatmap_corr_prepare [("a", some [1, 2]), ("b", some [2, 1])] none).2.1 0 1 =
      mEntry (heatmap_corr_prepare [("a", some [1, 2]), ("b", some [2, 1])] none).2.1 1 0 ∧
    (mEntry (heatmap_corr_prepare [("a", some [1, 2]), ("b", some [2, 1])] none).2.1 0 0).map
      entryIsOneB = some true :=
  ⟨(claim_C8_amended [("a", some [1, 2]), ("b", some [2, 1])] none).1,
   (claim_C8_amended [("a", some [1, 2]), ("b", some [2, 1])] none).2.1 0 1,
   (claim_C8_amended [("a", some [1, 2]), ("b", some [2, 1])] none).2.2 0
     ("a", [1, 2]) rfl
     (by norm_num [scov, sdot, centered, colMean])⟩

/-! Lemmas on `Series.unique` order, histogram bin edges and overlays. -/

theorem uniqueFirst_go_mem (l acc : List String) (g : String) :
    g ∈ l.foldl (fun a x => if x ∈ a then a else a ++ [x]) acc ↔ g ∈ acc ∨ g ∈ l := by
  induction l generalizing acc with
  | nil => simp
  | cons h t ih =>
    simp only [List.foldl_cons]
    rw [ih]
    by_cases hm : h ∈ acc
    · simp only [hm, if_true, List.mem_cons]
      constructor
      · rintro (h1 | h1)
        · exact Or.inl h1
        · exact Or.inr (Or.inr h1)
      · rintro (h1 | rfl | h1)
        · exact Or.inl h1
        · exact Or.inl hm
        · exact Or.inr h1
    · simp [hm, or_assoc]

theorem mem_uniqueFirst (g : String) (l : List String) :
    g ∈ uniqueFirst l ↔ g ∈ l := by
  unfold uniqueFirst
  rw [uniqueFirst_go_mem]
  simp

theorem uniqueFirst_go_nodup (l : List String) (acc : List String) (h : acc.Nodup) :
    (l.foldl (fun a x => if x ∈ a then a else a ++ [x]) acc).Nodup := by
  induction l generalizing acc with
  | nil => simpa using h
  | cons x t ih =>
    simp only [List.foldl_cons]
    by_cases hm : x ∈ acc
    · simp only [hm, if_true]
      exact ih acc h
    · simp only [hm, if_false]
      refine ih (acc ++ [x]) ?_
      simp [List.nodup_append, h, hm]

theorem uniqueFirst_nodup (l : List String) : (uniqueFirst l).Nodup :=
  uniqueFirst_go_nodup l [] (by simp)

theorem linspaceQ_length (a b : ℚ) (n : Nat) : (linspaceQ a b n).length = n := by
  unfold linspaceQ
  split
  · rw [List.length_replicate]
  · rw [List.length_map, List.length_range]

theorem histEdges_length (xs : List ℚ) (bins : Nat) :
    (histEdges xs bins).length = bins + 1 := by
  unfold histEdges
  cases xs <;> rw [linspaceQ_length]

/-- C9 fails on the code: each group's overlay is drawn by
`ax.hist(group_data, bins=self.bins)` with an integer bin count, so numpy
derives the edges from that group's own data range and overlays do not
share bin edges. With values `[0, 1, 10, 20]`, groups `[a, a, b, b]` and a
single bin, the overlay for `a` has edges `[0, 1]` while the overlay for
`b` has edges `[10, 20]`. -/
theorem claim_C9_counterexample :
    (histogram_group_overlays [0, 1, 10, 20] ["a", "a", "b", "b"] 1).map Overlay.label =
      ["a", "b"] ∧
    ((histogram_group_overlays [0, 1, 10, 20] ["a", "a", "b", "b"] 1).get? 0).map
      Overlay.edges = some [0, 1] ∧
    ((histogram_group_overlays [0, 1, 10, 20] ["a", "a", "b", "b"] 1).get? 1).map
      Overlay.edges = some [10, 20] ∧
    ((histogram_group_overlays [0, 1, 10, 20] ["a", "a", "b", "b"] 1).get? 0).map
      Overlay.edges ≠
      ((histogram_group_overlays [0, 1, 10, 20] ["a", "a", "b", "b"] 1).get? 1).map
      Overlay.edges := by
  have e1 : histEdges [(0 : ℚ), 1] 1 = [0, 1] := by
    simp only [histEdges, listMin, listMax, linspaceQ, List.foldl]
    norm_num [List.range_succ]
  have e2 : histEdges [(10 : ℚ), 20] 1 = [10, 20] := by
    simp only [histEdges, listMin, listMax, linspaceQ, List.foldl]
    norm_num [List.range_succ]
  have hov : histogram_group_overlays [0, 1, 10, 20] ["a", "a", "b", "b"] 1 =
      [{ label := "a", gdata := [0, 1], edges := [0, 1], alpha := 6/10 },
       { label := "b", gdata := [10, 20], edges := [10, 20], alpha := 6/10 }] := by
    simp +decide [histogram_group_overlays, uniqueFirst, e1, e2]
  refine ⟨?_, ?_, ?_, ?_⟩
  · rw [hov]
    rfl
  · rw [hov]
    rfl
  · rw [hov]
    rfl
  · rw [hov]
    intro h
    have h' := Option.some.inj h
    have h00 := congrArg (fun l => l.getD 0 0) h'
    norm_num at h00

/-- C9 amended: with a grouping column bound (and present), `create_plot`
draws exactly one translucent (`alpha = 0.6`) overlay per distinct group
value, in first-occurrence order with no group repeated, and draws none
for a group value absent from the data; every overlay uses the same bin
count, but its `bins+1` edges are computed from its own group's data
range, so overlays need not share bin edges. -/
theorem claim_C9_amended (values : List ℚ) (groups : List String) (bins : Nat) :
    ((histogram_group_overlays values groups bins).map Overlay.label =
      uniqueFirst groups ∧
    (uniqueFirst groups).Nodup) ∧
    (∀ o ∈ histogram_group_overlays values groups bins,
      o.label ∈ groups ∧ o.alpha = 6/10 ∧
      o.edges = histEdges o.gdata bins ∧ o.edges.length = bins + 1) := by
  refine ⟨⟨?_, uniqueFirst_nodup groups⟩, ?_⟩
  · unfold histogram_group_overlays
    generalize uniqueFirst groups = u
    induction u with
    | nil => rfl
    | cons x t ih => simp [ih]
  · intro o ho
    simp only [histogram_group_overlays, List.mem_map] at ho
    obtain ⟨g, hg, rfl⟩ := ho
    refine ⟨(mem_uniqueFirst g groups).mp hg, rfl, rfl, histEdges_length _ bins⟩

/-- Witness for C9 amended: two groups over four rows give two overlays
labelled in first-occurrence order, each translucent with two edges for a
single bin, computed from its own group's range. -/
theorem claim_C9_amended_witness :
    ((histogram_group_overlays [0, 1, 10, 20] ["a", "a", "b", "b"] 1).map Overlay.label =
      uniqueFirst ["a", "a", "b", "b"] ∧
    (uniqueFirst ["a", "a", "b", "b"]).Nodup) ∧
    (∀ o ∈ histogram_group_overlays [0, 1, 10, 20] ["a", "a", "b", "b"] 1,
      o.label ∈ ["a", "a", "b", "b"] ∧ o.alpha = 6/10 ∧
      o.edges = histEdges o.gdata 1 ∧ o.edges.length = 1 + 1) :=
  claim_C9_amended [0, 1, 10, 20] ["a", "a", "b", "b"] 1

end PlotGen
